import Mathlib

/-!
Verification of the AutoTrader One multi-factor scoring and risk pipeline.

Shallow embedding of the scoring, caching, risk and monitoring code over ℚ.
Python floats are modelled as rationals; a pandas NaN that escapes a
computation is modelled as `Option.none`; a fetch function that may raise is
modelled by an explicit outcome type.  Display-only strings (f-string
interpolations, interpretation texts) are abbreviated to constants, since no
verified property depends on them.
-/

namespace AutoTrader

/-- Python `round(x, 1)`: one decimal.  Modelled with Mathlib `round`
(half-up); no property below evaluates at an exact .05 tie, where Python's
banker rounding would differ. -/
def round1 (q : ℚ) : ℚ := ((round (q * 10) : ℤ) : ℚ) / 10

/-- Python `round(x, 3)`: three decimals. -/
def round3 (q : ℚ) : ℚ := ((round (q * 1000) : ℤ) : ℚ) / 1000

/-! ## Technical analysis — src/analysis/technical.py -/

/-- `df['Close'].diff()` followed by `delta.where(...)`: the leading NaN of
`diff` is replaced by 0 by `where` (NaN > 0 and NaN < 0 are both False), so
the delta series is 0 followed by the consecutive differences. -/
def tDeltas (prices : List ℚ) : List ℚ :=
  0 :: prices.tail.zipWith (fun a b => a - b) prices

/-- Last `k` elements of a list, the window of `rolling(k)` at `iloc[-1]`. -/
def lastN (k : ℕ) (xs : List ℚ) : List ℚ := xs.drop (xs.length - k)

/-- `(delta.where(delta > 0, 0))`, restricted to the final 14-bar window. -/
def rsiGains (prices : List ℚ) : List ℚ :=
  lastN 14 ((tDeltas prices).map fun d => if 0 < d then d else 0)

/-- `(-delta.where(delta < 0, 0))`, restricted to the final 14-bar window. -/
def rsiLosses (prices : List ℚ) : List ℚ :=
  lastN 14 ((tDeltas prices).map fun d => if d < 0 then -d else 0)

/-- `TechnicalAnalyzer._calculate_rsi` with the default 14-bar period.
`none` models a NaN result: pandas produces NaN when the rolling window is
incomplete (fewer than 14 rows) and when `gain/loss` is `0/0`; `float(nan)`
does not raise, so the except-branch default 50.0 is reached only when
`rsi.iloc[-1]` itself raises, i.e. on an empty frame.  `gain/0` with a
positive gain is `inf`, and `100 - 100/(1+inf) = 100`. -/
def calculateRsi (prices : List ℚ) : Option ℚ :=
  if prices = [] then some 50
  else if prices.length < 14 then none
  else if 0 < (rsiLosses prices).sum / 14 then
    some (100 - 100 /
      (1 + (rsiGains prices).sum / 14 / ((rsiLosses prices).sum / 14)))
  else if 0 < (rsiGains prices).sum / 14 then some 100
  else none

/-- `TechnicalAnalyzer._get_rsi_score`; a NaN RSI (`none`) fails both
comparisons in Python and falls through to the neutral 50. -/
def getRsiScore (rsi : Option ℚ) : ℚ :=
  match rsi with
  | some r => if 70 ≤ r then 20 else if r ≤ 30 then 80 else 50
  | none => 50

/-- `TechnicalAnalyzer._get_signal_score`. -/
def getSignalScore (signal : String) : ℚ :=
  if signal = "buy" then 80 else if signal = "sell" then 20 else 50

/-- `TechnicalAnalyzer._calculate_technical_score`: weighted mean of the four
sub-scores, rounded to one decimal. -/
def calculateTechnicalScore (rsi : Option ℚ) (smaSig macdSig volSig : String) : ℚ :=
  round1 (getRsiScore rsi * (3/10) + getSignalScore smaSig * (3/10) +
    getSignalScore macdSig * (3/10) + getSignalScore volSig * (1/10))

/-! ## Fundamental analysis — src/analysis/fundamental.py -/

/-- A fundamental-data dict.  The four analysed ratios are `none` when the
key is absent; `hasOtherKeys` records whether the dict carries any further
key (such as `symbol`), so that Python's `not fundamental_data` truthiness
test is expressible. -/
structure FundamentalData where
  pe : Option ℚ
  eps : Option ℚ
  revenueGrowth : Option ℚ
  profitMargin : Option ℚ
  hasOtherKeys : Bool
deriving DecidableEq

/-- Python `not fundamental_data`: the dict has no keys at all. -/
def fdIsEmpty (fd : FundamentalData) : Bool :=
  fd.pe.isNone && fd.eps.isNone && fd.revenueGrowth.isNone &&
    fd.profitMargin.isNone && !fd.hasOtherKeys

/-- P/E band table of `FundamentalAnalyzer.analyze`. -/
def peScore (q : ℚ) : ℚ :=
  if 5 ≤ q ∧ q ≤ 15 then 80
  else if 15 < q ∧ q ≤ 25 then 60
  else if 25 < q ∧ q ≤ 35 then 40
  else if 35 < q then 20
  else 30

/-- EPS band table of `FundamentalAnalyzer.analyze`. -/
def epsScore (e : ℚ) : ℚ :=
  if e ≤ 0 then 20
  else if 0 < e ∧ e ≤ 2 then 40
  else if 2 < e ∧ e ≤ 5 then 60
  else 80

/-- Revenue-growth band table of `FundamentalAnalyzer.analyze`. -/
def growthScore (g : ℚ) : ℚ :=
  if g < 0 then max 20 (50 + g * 100)
  else if 0 ≤ g ∧ g < 1/20 then 50
  else if 1/20 ≤ g ∧ g < 1/10 then 60
  else if 1/10 ≤ g ∧ g < 1/5 then 75
  else 90

/-- Profit-margin band table of `FundamentalAnalyzer.analyze`. -/
def marginScore (m : ℚ) : ℚ :=
  if m < 0 then 20
  else if 0 ≤ m ∧ m < 1/20 then 40
  else if 1/20 ≤ m ∧ m < 1/10 then 60
  else if 1/10 ≤ m ∧ m < 1/5 then 80
  else 90

/-- One entry of the `metrics` dict of the fundamental result (the
display-only `interpretation` string is omitted). -/
structure MetricEntry where
  name : String
  value : ℚ
  score : ℚ
deriving DecidableEq

/-- Result dict of `FundamentalAnalyzer.analyze`; `recommendation` is `none`
exactly when the key is absent from the returned dict. -/
structure FundamentalResult where
  score : ℚ
  metrics : List MetricEntry
  recommendation : Option String
deriving DecidableEq

/-- Default `self.metrics` configuration of `FundamentalAnalyzer`. -/
def defaultFundamentalMetrics : List String := ["pe_ratio", "eps", "revenue_growth"]

/-- `FundamentalAnalyzer.analyze`: empty input short-circuits to
`{score: 50, metrics: {}}` with no recommendation key; otherwise each
configured and present ratio contributes a banded sub-score, the overall
score is the mean of the collected sub-scores (50 if none), and the
recommendation key is always set from the unrounded overall score. -/
def fundamentalAnalyze (metricsCfg : List String) (fd : FundamentalData) :
    FundamentalResult :=
  if fdIsEmpty fd then ⟨50, [], none⟩
  else
    let m1 : List MetricEntry :=
      if "pe_ratio" ∈ metricsCfg then
        match fd.pe with
        | some v => [⟨"pe_ratio", v, peScore v⟩]
        | none => []
      else []
    let m2 : List MetricEntry :=
      if "eps" ∈ metricsCfg then
        match fd.eps with
        | some v => [⟨"eps", v, epsScore v⟩]
        | none => []
      else []
    let m3 : List MetricEntry :=
      if "revenue_growth" ∈ metricsCfg then
        match fd.revenueGrowth with
        | some v => [⟨"revenue_growth", v, growthScore v⟩]
        | none => []
      else []
    let m4 : List MetricEntry :=
      if "profit_margin" ∈ metricsCfg then
        match fd.profitMargin with
        | some v => [⟨"profit_margin", v, marginScore v⟩]
        | none => []
      else []
    let ms := m1 ++ m2 ++ m3 ++ m4
    let overall : ℚ :=
      if ms = [] then 50 else (ms.map (·.score)).sum / (ms.length : ℚ)
    ⟨round1 overall, ms,
      some (if 60 < overall then "buy" else if overall < 40 then "sell" else "hold")⟩

/-! ## Sentiment analysis — src/analysis/sentiment.py -/

/-- A news article; `publishedAt` is in seconds.  The TextBlob polarity of
`title + ' ' + description` is an external collaborator and is passed to the
analyzer as an explicit function. -/
structure NewsArticle where
  publishedAt : ℚ
  title : String
  description : String
deriving DecidableEq

/-- The `metrics` sub-dict of the sentiment result. -/
structure SentimentMetrics where
  recentSentiment : ℚ
  olderSentiment : ℚ
  totalArticles : ℕ
  recentArticles : ℕ
  olderArticles : ℕ
deriving DecidableEq

/-- Result dict of `SentimentAnalyzer.analyze`. -/
structure SentimentResult where
  score : ℚ
  recommendation : String
  metrics : SentimentMetrics
deriving DecidableEq

/-- `SentimentAnalyzer._get_default_result`. -/
def defaultSentimentResult : SentimentResult := ⟨50, "hold", ⟨0, 0, 0, 0, 0⟩⟩

/-- `SentimentAnalyzer._normalize_sentiment`. -/
def normalizeSentiment (s : ℚ) : ℚ := round1 ((s + 1) * 50)

/-- `SentimentAnalyzer._get_recommendation`. -/
def sentimentRecommendation (score : ℚ) : String :=
  if 70 ≤ score then "buy" else if score ≤ 30 then "sell" else "hold"

/-- `SentimentAnalyzer.analyze` with explicit clock `now` and polarity
function.  Below the article minimum (or on an empty list) the neutral
default is returned before any polarity is computed. -/
def sentimentAnalyze (minArticles : ℕ) (recentWeight olderWeight recentDays : ℚ)
    (now : ℚ) (polarity : NewsArticle → ℚ) (news : List NewsArticle) :
    SentimentResult :=
  if news = [] ∨ news.length < minArticles then defaultSentimentResult
  else
    let cutoff := now - recentDays * 86400
    let recent := news.filter fun a => cutoff ≤ a.publishedAt
    let older := news.filter fun a => a.publishedAt < cutoff
    let recentSentiment : ℚ :=
      if recent = [] then 0 else (recent.map polarity).sum / (recent.length : ℚ)
    let olderSentiment : ℚ :=
      if older = [] then 0 else (older.map polarity).sum / (older.length : ℚ)
    let weighted := recentSentiment * recentWeight + olderSentiment * olderWeight
    let score := normalizeSentiment weighted
    ⟨score, sentimentRecommendation score,
      ⟨round3 recentSentiment, round3 olderSentiment, news.length,
        recent.length, older.length⟩⟩

/-! ## Risk assessment — src/risk_management/risk_manager.py -/

/-- Fundamental inputs of `RiskManager._calculate_fundamental_risk`;
`none` models an absent key. -/
structure RiskFundamentals where
  debtToEquity : Option ℚ
  currentRat : Option ℚ
  profitMargin : Option ℚ
deriving DecidableEq

/-- Python `d.get(k) or default`: the default is substituted both when the
key is absent and when the stored value is falsy (0.0). -/
def pyGetOr (o : Option ℚ) (d : ℚ) : ℚ :=
  match o with
  | some x => if x = 0 then d else x
  | none => d

/-- `RiskManager._calculate_fundamental_risk`. -/
def calculateFundamentalRisk (fd : RiskFundamentals) : ℚ :=
  let de := pyGetOr fd.debtToEquity 1
  let cr := pyGetOr fd.currentRat (3/2)
  let pm := pyGetOr fd.profitMargin (1/10)
  let debtScore := if 2 < de then 100 else de / 2 * 100
  let liquidityScore := if cr < 1 then 100 else 1 / cr * 100
  let profitScore := if pm < 0 then 100 else (1 - pm) * 100
  (debtScore + liquidityScore + profitScore) / 3

/-- `RiskManager._normalize_volatility`. -/
def normalizeVolatility (v : ℚ) : ℚ :=
  if v ≤ 3/20 then 20 else if v ≤ 1/4 then 40 else if v ≤ 7/20 then 60
  else if v ≤ 9/20 then 80 else 100

/-- `RiskManager._normalize_beta`. -/
def normalizeBeta (b : ℚ) : ℚ :=
  if b < 1/2 then 70 else if b ≤ 4/5 then 40 else if b ≤ 6/5 then 30
  else if b ≤ 3/2 then 60 else 80

/-- `RiskManager._normalize_sharpe`. -/
def normalizeSharpe (s : ℚ) : ℚ :=
  if s ≤ 0 then 80 else if s ≤ 1/2 then 60 else if s ≤ 1 then 40
  else if s ≤ 3/2 then 30 else 20

/-- `RiskManager._normalize_drawdown`. -/
def normalizeDrawdown (d : ℚ) : ℚ :=
  if d ≤ 1/10 then 20 else if d ≤ 1/5 then 40 else if d ≤ 3/10 then 60
  else if d ≤ 2/5 then 80 else 100

/-- `RiskManager._normalize_var`. -/
def normalizeVar (v : ℚ) : ℚ :=
  if v ≤ 1/100 then 20 else if v ≤ 1/50 then 40 else if v ≤ 3/100 then 60
  else if v ≤ 1/25 then 80 else 100

/-- `RiskManager._calculate_risk_score`: fixed-weight combination of the
normalized metrics, rounded to one decimal. -/
def calculateRiskScore (vol beta sharpe drawdown var95 : ℚ)
    (fd : RiskFundamentals) : ℚ :=
  round1 (normalizeVolatility vol * (1/4) + normalizeBeta beta * (3/20) +
    normalizeSharpe sharpe * (1/5) + normalizeDrawdown drawdown * (3/20) +
    normalizeVar var95 * (1/10) + calculateFundamentalRisk fd * (3/20))

/-! ## Recommendation label and risk veto —
src/recommendations/engine.py and src/core/risk.py -/

/-- The fields of a recommendation dict consulted by
`RiskManager.validate_trade`; `riskScore = none` models an absent
`risk_score` key, which `dict.get` defaults to 100. -/
structure TradeRecommendation where
  riskScore : Option ℚ
  successProbability : ℚ
deriving DecidableEq

/-- Mutable risk state and configuration of `core.risk.RiskManager`. -/
structure RiskConfig where
  maxPositionSize : ℚ
  maxDailyLoss : ℚ
  maxDrawdownCfg : ℚ
  dailyLoss : ℚ
  peakPortfolioValue : ℚ
deriving DecidableEq

/-- The portfolio field consulted by `validate_trade`. -/
structure Portfolio where
  totalValue : ℚ
deriving DecidableEq

/-- `core.risk.RiskManager._calculate_position_size` (its `portfolio`
argument is unused in the source). -/
def calculatePositionSize (st : RiskConfig) (rec : TradeRecommendation) : ℚ :=
  let baseSize := min 1 (rec.successProbability / 100)
  let riskAdjustment := 1 - rec.riskScore.getD 100 / 100
  min (baseSize * riskAdjustment) st.maxPositionSize

/-- `core.risk.RiskManager.validate_trade`.  The first check vetoes any
trade whose risk score exceeds 80; later messages interpolate numbers in the
source and are abbreviated to constants here. -/
def validateTrade (st : RiskConfig) (rec : TradeRecommendation) (p : Portfolio) :
    Bool × String :=
  if 80 < rec.riskScore.getD 100 then (false, "For høy risiko (score > 80)")
  else if st.maxPositionSize < calculatePositionSize st rec then
    (false, "Posisjon for stor")
  else if st.maxDailyLoss < st.dailyLoss then
    (false, "Dagens maksimale tap nådd")
  else if 0 < p.totalValue ∧ 0 < st.peakPortfolioValue ∧
      st.maxDrawdownCfg <
        (st.peakPortfolioValue - p.totalValue) / st.peakPortfolioValue then
    (false, "Maksimal drawdown nådd")
  else (true, "Handel godkjent")

/-- The buy/sell/hold decision of
`RecommendationEngine.generate_recommendations` (min_score defaults to 60). -/
def recommendationLabel (minScore overall : ℚ) : String :=
  if minScore ≤ overall then "buy"
  else if overall ≤ 100 - minScore then "sell"
  else "hold"

/-- A buy that is actually executed: the engine labels the symbol `buy` and
the risk manager approves the trade. -/
def ExecutedBuy (st : RiskConfig) (overall : ℚ) (rec : TradeRecommendation)
    (p : Portfolio) : Prop :=
  recommendationLabel 60 overall = "buy" ∧ (validateTrade st rec p).1 = true

instance (st : RiskConfig) (overall : ℚ) (rec : TradeRecommendation)
    (p : Portfolio) : Decidable (ExecutedBuy st overall rec p) := by
  unfold ExecutedBuy; infer_instance

/-! ## Cached data collection — src/data_sources/data_collector.py -/

/-- One cache entry: payload plus fetch timestamp (seconds). -/
structure CacheEntry (D : Type) where
  data : D
  timestamp : ℚ
deriving DecidableEq

/-- The cache dict, as an association list in which the most recent binding
for a key shadows older ones (dict assignment replaces the binding). -/
def CacheState (D : Type) : Type := List (String × CacheEntry D)

instance (D : Type) [DecidableEq D] : DecidableEq (CacheState D) := by
  unfold CacheState; infer_instance

/-- Dict lookup. -/
def cacheLookup {D : Type} : CacheState D → String → Option (CacheEntry D)
  | [], _ => none
  | (k, e) :: rest, key => if k = key then some e else cacheLookup rest key

/-- `DataCollector._cache_data`: store the payload with the current time. -/
def cacheStore {D : Type} (st : CacheState D) (key : String) (data : D)
    (now : ℚ) : CacheState D :=
  (key, ⟨data, now⟩) :: st

/-- `DataCollector._is_cache_valid`: an entry is live while its age is
strictly below the per-category timeout. -/
def isCacheValid {D : Type} (st : CacheState D) (now timeout : ℚ)
    (key : String) : Bool :=
  match cacheLookup st key with
  | none => false
  | some e => decide (now - e.timestamp < timeout)

/-- Behaviour of the underlying provider call. -/
inductive FetchOutcome (D : Type) where
  | raises
  | returnsNone
  | returnsData (d : D)
deriving DecidableEq

/-- What the caller of the collector observes: a raised exception or a
normal return carrying an optional payload. -/
inductive FetchOutput (D : Type) where
  | exn
  | payload (v : Option D)
deriving DecidableEq

/-- `DataCollector.get_market_data` (the news and fundamental getters are
textually identical up to key and timeout).  Returns the caller-visible
output, the new cache state, and whether the provider was invoked.  The
whole body sits in a `try` whose `except` logs and returns `None`, so a
raising provider yields `payload none` — no exception escapes — and a `None`
result is never cached. -/
def getMarketData {D : Type} (st : CacheState D) (now timeout : ℚ)
    (key : String) (fetch : FetchOutcome D) :
    FetchOutput D × CacheState D × Bool :=
  if isCacheValid st now timeout key then
    match cacheLookup st key with
    | some e => (.payload (some e.data), st, false)
    | none => (.payload none, st, false)
  else
    match fetch with
    | .raises => (.payload none, st, true)
    | .returnsNone => (.payload none, st, true)
    | .returnsData d => (.payload (some d), cacheStore st key d now, true)

/-! ## Monitoring — src/core/monitoring.py -/

/-- An alert with its cooldown state; `lastTriggered = none` models the
initial `None`. -/
structure Alert where
  condition : String
  threshold : ℚ
  lastTriggered : Option ℚ
deriving DecidableEq

/-- `Alert.should_trigger`: a pure predicate on the current value. -/
def shouldTrigger (a : Alert) (v : ℚ) : Bool :=
  if a.condition = "gt" then decide (a.threshold < v)
  else if a.condition = "lt" then decide (v < a.threshold)
  else if a.condition = "eq" then decide (|v - a.threshold| < 1/10000)
  else false

/-- `MonitoringSystem._trigger_alert`: suppressed while `last_triggered` is
truthy (non-`None` and non-zero, matching Python truthiness) and less than
3600 seconds old; otherwise fires and records the firing time. -/
def triggerAlert (a : Alert) (now : ℚ) : Bool × Alert :=
  match a.lastTriggered with
  | some t =>
      if t ≠ 0 ∧ now - t < 3600 then (false, a)
      else (true, { a with lastTriggered := some now })
  | none => (true, { a with lastTriggered := some now })

/-- One evaluation of an alert against a freshly tracked metric value, as in
`MonitoringSystem.check_alerts` for a matching alert name: the alert fires
iff its condition holds and it is out of cooldown. -/
def evaluateAlert (a : Alert) (v now : ℚ) : Bool × Alert :=
  if shouldTrigger a v then triggerAlert a now else (false, a)

/-! ## Shared helper lemmas -/

/-- One-decimal rounding is monotone. -/
theorem round1_mono {a b : ℚ} (h : a ≤ b) : round1 a ≤ round1 b := by
  unfold round1
  have hr : round (a * 10) ≤ round (b * 10) := by
    rw [round_eq, round_eq]
    exact Int.floor_mono (by linarith)
  have hq : ((round (a * 10) : ℤ) : ℚ) ≤ ((round (b * 10) : ℤ) : ℚ) := by
    exact_mod_cast hr
  linarith

/-- round1 fixes 20. -/
theorem round1_twenty : round1 20 = 20 := by
  rw [round1, round_eq]; norm_num [Int.floor_eq_iff]

/-- round1 fixes 80. -/
theorem round1_eighty : round1 80 = 80 := by
  rw [round1, round_eq]; norm_num [Int.floor_eq_iff]

/-- Every element of the RSI loss window is nonnegative. -/
theorem rsiLosses_nonneg (p : List ℚ) : ∀ x ∈ rsiLosses p, 0 ≤ x := by
  intro x hx
  unfold rsiLosses lastN at hx
  rcases List.mem_map.1 (List.drop_subset _ _ hx) with ⟨d, -, rfl⟩
  split <;> linarith

/-- Every element of the RSI gain window is nonnegative. -/
theorem rsiGains_nonneg (p : List ℚ) : ∀ x ∈ rsiGains p, 0 ≤ x := by
  intro x hx
  unfold rsiGains lastN at hx
  rcases List.mem_map.1 (List.drop_subset _ _ hx) with ⟨d, -, rfl⟩
  split <;> linarith

/-- The RSI sub-score only takes the values 20, 50 and 80. -/
theorem getRsiScore_cases (rsi : Option ℚ) :
    getRsiScore rsi = 20 ∨ getRsiScore rsi = 50 ∨ getRsiScore rsi = 80 := by
  rcases rsi with - | r
  · right; left; rfl
  · simp only [getRsiScore]
    split_ifs <;> simp

/-- The categorical signal sub-score only takes the values 20, 50 and 80. -/
theorem getSignalScore_cases (s : String) :
    getSignalScore s = 20 ∨ getSignalScore s = 50 ∨ getSignalScore s = 80 := by
  unfold getSignalScore
  split_ifs <;> simp

/-- The volatility band table is monotone non-decreasing. -/
theorem normalizeVolatility_mono {a b : ℚ} (h : a ≤ b) :
    normalizeVolatility a ≤ normalizeVolatility b := by
  unfold normalizeVolatility
  split_ifs <;> linarith

/-- The drawdown band table is monotone non-decreasing. -/
theorem normalizeDrawdown_mono {a b : ℚ} (h : a ≤ b) :
    normalizeDrawdown a ≤ normalizeDrawdown b := by
  unfold normalizeDrawdown
  split_ifs <;> linarith

/-- The VaR band table is monotone non-decreasing. -/
theorem normalizeVar_mono {a b : ℚ} (h : a ≤ b) :
    normalizeVar a ≤ normalizeVar b := by
  unfold normalizeVar
  split_ifs <;> linarith

/-! ## Claim theorems -/

/-- C9: for every RSI value (including a NaN one) and every combination of
SMA/MACD/volume signal strings, the composite technical score lies in
[20, 80], and each categorical sub-score takes a value in {20, 50, 80}. -/
theorem technicalScore_range (rsi : Option ℚ) (smaSig macdSig volSig : String) :
    (20 ≤ calculateTechnicalScore rsi smaSig macdSig volSig ∧
      calculateTechnicalScore rsi smaSig macdSig volSig ≤ 80) ∧
    (getRsiScore rsi = 20 ∨ getRsiScore rsi = 50 ∨ getRsiScore rsi = 80) ∧
    ∀ s : String, getSignalScore s = 20 ∨ getSignalScore s = 50 ∨
      getSignalScore s = 80 := by
  refine ⟨?_, getRsiScore_cases rsi, getSignalScore_cases⟩
  have hbound : ∀ q : ℚ, q = 20 ∨ q = 50 ∨ q = 80 → 20 ≤ q ∧ q ≤ 80 := by
    rintro q (rfl | rfl | rfl) <;> norm_num
  have h1 := hbound _ (getRsiScore_cases rsi)
  have h2 := hbound _ (getSignalScore_cases smaSig)
  have h3 := hbound _ (getSignalScore_cases macdSig)
  have h4 := hbound _ (getSignalScore_cases volSig)
  unfold calculateTechnicalScore
  constructor
  · calc (20 : ℚ) = round1 20 := round1_twenty.symm
    _ ≤ _ := round1_mono (by linarith)
  · calc _ ≤ round1 80 := round1_mono (by linarith)
    _ = 80 := round1_eighty

/-- C6: the fundamental scorer on {pe_ratio: 10, eps: 3, revenue_growth:
0.15} under the default metric configuration returns the mean of the
sub-scores 80, 60 and 75, i.e. 71.7 after one-decimal rounding, with
recommendation "buy". -/
theorem fundamentalScenarioB :
    fundamentalAnalyze defaultFundamentalMetrics
        ⟨some 10, some 3, some (3/20), none, false⟩ =
      ⟨717/10,
        [⟨"pe_ratio", 10, 80⟩, ⟨"eps", 3, 60⟩, ⟨"revenue_growth", 3/20, 75⟩],
        some "buy"⟩ := by
  simp [fundamentalAnalyze, fdIsEmpty, defaultFundamentalMetrics, peScore,
    epsScore, growthScore, round1, round_eq]
  norm_num [Int.floor_eq_iff]

/-- C10: an empty fundamental dict yields exactly {score: 50, metrics: {}}
with no recommendation key, while every non-empty dict yields a result that
does carry a recommendation key. -/
theorem fundamentalEmptyBehavior (cfg : List String) (fd : FundamentalData) :
    (fdIsEmpty fd = true → fundamentalAnalyze cfg fd = ⟨50, [], none⟩) ∧
    (fdIsEmpty fd = false →
      (fundamentalAnalyze cfg fd).recommendation.isSome = true) := by
  constructor
  · intro h; simp [fundamentalAnalyze, h]
  · intro h; simp [fundamentalAnalyze, h]

/-- Witness for C10 at the empty dict and at a one-key dict. -/
theorem fundamentalEmptyBehavior_witness :
    fundamentalAnalyze defaultFundamentalMetrics ⟨none, none, none, none, false⟩ =
      ⟨50, [], none⟩ ∧
    (fundamentalAnalyze defaultFundamentalMetrics
        ⟨some 10, none, none, none, false⟩).recommendation.isSome = true :=
  ⟨(fundamentalEmptyBehavior defaultFundamentalMetrics
      ⟨none, none, none, none, false⟩).1 rfl,
    (fundamentalEmptyBehavior defaultFundamentalMetrics
      ⟨some 10, none, none, none, false⟩).2 rfl⟩

/-- C7: with the default minimum of 3 articles, every news list shorter
than the minimum (including the empty list) yields the neutral default
result {score: 50, recommendation: "hold"}, for every polarity function —
no per-article sentiment is consulted. -/
theorem sentimentBelowMinimum (recentWeight olderWeight recentDays now : ℚ)
    (polarity : NewsArticle → ℚ) (news : List NewsArticle)
    (h : news.length < 3) :
    sentimentAnalyze 3 recentWeight olderWeight recentDays now polarity news =
      ⟨50, "hold", ⟨0, 0, 0, 0, 0⟩⟩ := by
  unfold sentimentAnalyze
  rw [if_pos (Or.inr h)]
  rfl

/-- Witness for C7: a concrete two-article list with a nonzero polarity
function still yields the neutral default. -/
theorem sentimentBelowMinimum_witness :
    sentimentAnalyze 3 (7/10) (3/10) 3 86400 (fun _ => 1)
        [⟨0, "a", "b"⟩, ⟨86400, "c", "d"⟩] = ⟨50, "hold", ⟨0, 0, 0, 0, 0⟩⟩ :=
  sentimentBelowMinimum (7/10) (3/10) 3 86400 (fun _ => 1)
    [⟨0, "a", "b"⟩, ⟨86400, "c", "d"⟩] (by norm_num)

/-- C8: an alert whose positive last-firing time is less than 3600 seconds
old cannot fire again and is left unchanged, and it fires again on the first
breach evaluated at or after 3600 seconds, recording the new firing time. -/
theorem alertCooldownRefire (a : Alert) (v now t : ℚ)
    (hlast : a.lastTriggered = some t) (hpos : 0 < t) :
    (now - t < 3600 → evaluateAlert a v now = (false, a)) ∧
    (3600 ≤ now - t → shouldTrigger a v = true →
      evaluateAlert a v now = (true, { a with lastTriggered := some now })) := by
  constructor
  · intro h
    unfold evaluateAlert
    split
    · unfold triggerAlert
      rw [hlast]
      exact if_pos ⟨ne_of_gt hpos, h⟩
    · rfl
  · intro h hst
    unfold evaluateAlert
    rw [if_pos hst]
    unfold triggerAlert
    rw [hlast]
    exact if_neg (fun hc => absurd hc.2 (by linarith))

/-- Witness for C8, scenario E: threshold 0.02, condition "gt"; the alert
fires for 0.05 at t=10000, a breach 600 s later is suppressed, and a breach
3660 s after the firing fires again. -/
theorem alertCooldownRefire_witness :
    evaluateAlert ⟨"gt", 1/50, some 10000⟩ (1/20) 10600 =
      (false, ⟨"gt", 1/50, some 10000⟩) ∧
    evaluateAlert ⟨"gt", 1/50, some 10000⟩ (1/20) 13660 =
      (true, ⟨"gt", 1/50, some 13660⟩) :=
  ⟨(alertCooldownRefire ⟨"gt", 1/50, some 10000⟩ (1/20) 10600 10000 rfl
      (by norm_num)).1 (by norm_num),
    (alertCooldownRefire ⟨"gt", 1/50, some 10000⟩ (1/20) 13660 10000 rfl
      (by norm_num)).2 (by norm_num)
      (by simp only [shouldTrigger]; norm_num)⟩

/-- C1: whenever the risk score carried by a recommendation exceeds 80
(an absent risk_score key defaults to 100), `validate_trade` rejects the
trade with the fixed veto message as its very first check, so no overall
score — in particular one at or above the buy threshold — can produce an
executed buy. -/
theorem riskVetoNoBuy (st : RiskConfig) (rec : TradeRecommendation)
    (p : Portfolio) (h : 80 < rec.riskScore.getD 100) :
    validateTrade st rec p = (false, "For høy risiko (score > 80)") ∧
    ∀ overall : ℚ, ¬ ExecutedBuy st overall rec p := by
  have hv : validateTrade st rec p = (false, "For høy risiko (score > 80)") := by
    unfold validateTrade
    rw [if_pos h]
  refine ⟨hv, fun overall hb => ?_⟩
  rcases hb with ⟨-, hok⟩
  rw [hv] at hok
  exact Bool.false_ne_true hok

/-- Witness for C1, scenario D: overall_score 75 is labelled "buy" by the
engine, yet with risk_score 85 no executed buy results. -/
theorem riskVetoNoBuy_witness :
    recommendationLabel 60 75 = "buy" ∧
    ¬ ExecutedBuy ⟨1/10, 1/50, 1/10, 0, 0⟩ 75 ⟨some 85, 50⟩ ⟨1000⟩ :=
  ⟨by norm_num [recommendationLabel],
    (riskVetoNoBuy ⟨1/10, 1/50, 1/10, 0, 0⟩ ⟨some 85, 50⟩ ⟨1000⟩
      (by norm_num)).2 75⟩

/-- C2: starting from a cache miss, a successful fetch is invoked, its
payload is stored under the key with the current timestamp, and a second
call within the TTL returns the stored payload without invoking its fetch
function — the provider runs exactly once across the two calls. -/
theorem cacheFetchOnce (D : Type) (st : CacheState D) (t0 t1 tmo : ℚ)
    (key : String) (d : D) (f2 : FetchOutcome D)
    (hmiss : isCacheValid st t0 tmo key = false)
    (_h0 : t0 ≤ t1) (h1 : t1 - t0 < tmo) :
    getMarketData st t0 tmo key (.returnsData d) =
      (.payload (some d), cacheStore st key d t0, true) ∧
    cacheLookup (cacheStore st key d t0) key = some ⟨d, t0⟩ ∧
    getMarketData (cacheStore st key d t0) t1 tmo key f2 =
      (.payload (some d), cacheStore st key d t0, false) := by
  have hlook : cacheLookup (cacheStore st key d t0) key = some ⟨d, t0⟩ := by
    simp [cacheStore, cacheLookup]
  refine ⟨?_, hlook, ?_⟩
  · unfold getMarketData
    rw [hmiss]
    rfl
  · have hvalid : isCacheValid (cacheStore st key d t0) t1 tmo key = true := by
      unfold isCacheValid
      rw [hlook]
      simpa using h1
    unfold getMarketData
    rw [hvalid, hlook]
    rfl

/-- Witness for C2: cold cache, fetch of payload 42 at t=0, second call at
t=100 with TTL 300 whose own fetch would raise. -/
theorem cacheFetchOnce_witness :
    isCacheValid ([] : CacheState ℚ) 0 300 "market_data_EQNR" = false ∧
    (getMarketData ([] : CacheState ℚ) 0 300 "market_data_EQNR"
        (.returnsData 42) =
      (.payload (some 42), [("market_data_EQNR", ⟨42, 0⟩)], true) ∧
    cacheLookup [("market_data_EQNR", (⟨42, 0⟩ : CacheEntry ℚ))]
        "market_data_EQNR" = some ⟨42, 0⟩ ∧
    getMarketData [("market_data_EQNR", (⟨42, 0⟩ : CacheEntry ℚ))] 100 300
        "market_data_EQNR" .raises =
      (.payload (some 42), [("market_data_EQNR", ⟨42, 0⟩)], false)) :=
  ⟨rfl, cacheFetchOnce ℚ [] 0 100 300 "market_data_EQNR" 42 .raises rfl
    (by norm_num) (by norm_num)⟩

/-- C3 counterexample: with a stale entry for the key and a fetch that
raises, the collector returns a plain `None` to its caller — the exception
does not propagate out of `get_market_data`, contradicting the claim that
the error reaches the caller as a raised error. -/
theorem cacheErrorPropagation_cex :
    isCacheValid [("market_data_EQNR", (⟨7, 0⟩ : CacheEntry ℚ))] 1000 300
        "market_data_EQNR" = false ∧
    (getMarketData [("market_data_EQNR", (⟨7, 0⟩ : CacheEntry ℚ))] 1000 300
        "market_data_EQNR" .raises).1 = .payload none ∧
    (getMarketData [("market_data_EQNR", (⟨7, 0⟩ : CacheEntry ℚ))] 1000 300
        "market_data_EQNR" .raises).1 ≠ FetchOutput.exn := by
  have hmiss : isCacheValid [("market_data_EQNR", (⟨7, 0⟩ : CacheEntry ℚ))]
      1000 300 "market_data_EQNR" = false := by
    simp [isCacheValid, cacheLookup]
    norm_num
  have heval : (getMarketData [("market_data_EQNR", (⟨7, 0⟩ : CacheEntry ℚ))]
      1000 300 "market_data_EQNR" .raises).1 = .payload none := by
    unfold getMarketData
    rw [hmiss]
    rfl
  refine ⟨hmiss, heval, ?_⟩
  rw [heval]
  exact fun hc => FetchOutput.noConfusion hc

/-- C3 amended: when the cache has no live entry and the fetch raises, the
stale entry (if any) is not served, the cache state is left unchanged, and
the caller receives `None` (the error is caught inside the collector; the
caller decides the fallback). -/
theorem cacheFetchErrorAmended (D : Type) (st : CacheState D) (now tmo : ℚ)
    (key : String) (hmiss : isCacheValid st now tmo key = false) :
    getMarketData st now tmo key .raises = (.payload none, st, true) := by
  unfold getMarketData
  rw [hmiss]
  rfl

/-- Witness for the amended C3 at a concrete stale cache entry. -/
theorem cacheFetchErrorAmended_witness :
    isCacheValid [("market_data_AKER", (⟨7, 0⟩ : CacheEntry ℚ))] 1000 300
        "market_data_AKER" = false ∧
    getMarketData [("market_data_AKER", (⟨7, 0⟩ : CacheEntry ℚ))] 1000 300
        "market_data_AKER" .raises =
      (.payload none, [("market_data_AKER", ⟨7, 0⟩)], true) :=
  ⟨by simp [isCacheValid, cacheLookup]; norm_num,
    cacheFetchErrorAmended ℚ [("market_data_AKER", ⟨7, 0⟩)] 1000 300
      "market_data_AKER" (by simp [isCacheValid, cacheLookup]; norm_num)⟩

/-- C4 counterexample: on a flat 14-bar series every delta is zero, pandas
evaluates `rs = 0/0 = NaN`, and the RSI returned by `_calculate_rsi` is NaN
— not a number in [0, 100]. -/
theorem rsiRange_cex :
    ¬ ∃ r : ℚ, calculateRsi (List.replicate 14 100) = some r ∧
      0 ≤ r ∧ r ≤ 100 := by
  have hnone : calculateRsi (List.replicate 14 100) = none := by
    simp [calculateRsi, rsiGains, rsiLosses, tDeltas, lastN, List.replicate]
  rintro ⟨r, hr, -⟩
  rw [hnone] at hr
  exact Option.noConfusion hr

/-- C4 amended: for every series of at least 14 closes whose final 14-bar
window contains at least one nonzero delta, the computed RSI is a number in
[0, 100], and it equals 100 only when every loss in the window is exactly
zero and some gain is positive. -/
theorem rsiRangeAmended (p : List ℚ) (hlen : 14 ≤ p.length)
    (hnz : 0 < (rsiGains p).sum + (rsiLosses p).sum) :
    ∃ r : ℚ, calculateRsi p = some r ∧ 0 ≤ r ∧ r ≤ 100 ∧
      (r = 100 → (∀ x ∈ rsiLosses p, x = 0) ∧ 0 < (rsiGains p).sum) := by
  have hg0 : 0 ≤ (rsiGains p).sum := List.sum_nonneg (rsiGains_nonneg p)
  have hl0 : 0 ≤ (rsiLosses p).sum := List.sum_nonneg (rsiLosses_nonneg p)
  have hne : ¬ p = [] := by
    intro hp
    rw [hp] at hlen
    simp at hlen
  have hlt : ¬ p.length < 14 := by omega
  unfold calculateRsi
  rw [if_neg hne, if_neg hlt]
  rcases lt_or_eq_of_le hl0 with hl | hl
  · have hcond : 0 < (rsiLosses p).sum / 14 := div_pos hl (by norm_num)
    rw [if_pos hcond]
    set q := (rsiGains p).sum / 14 / ((rsiLosses p).sum / 14) with hq
    have hqnn : 0 ≤ q :=
      div_nonneg (div_nonneg hg0 (by norm_num)) (le_of_lt hcond)
    have h1q : (0:ℚ) < 1 + q := by linarith
    have hfrac_pos : 0 < 100 / (1 + q) := div_pos (by norm_num) h1q
    have hfrac_le : 100 / (1 + q) ≤ 100 := by
      rw [div_le_iff₀ h1q]
      nlinarith
    refine ⟨_, rfl, by linarith, by linarith, fun h100 => absurd h100 ?_⟩
    intro h100
    have hz : 100 / (1 + q) = 0 := by linarith
    linarith
  · have hlz : (rsiLosses p).sum = 0 := hl.symm
    have hgpos : 0 < (rsiGains p).sum := by linarith
    have hcondneg : ¬ 0 < (rsiLosses p).sum / 14 := by
      rw [hlz]
      norm_num
    rw [if_neg hcondneg,
      if_pos (show 0 < (rsiGains p).sum / 14 from div_pos hgpos (by norm_num))]
    refine ⟨100, rfl, by norm_num, by norm_num, fun _ => ⟨?_, hgpos⟩⟩
    intro x hx
    exact List.all_zero_of_le_zero_le_of_sum_eq_zero (rsiLosses_nonneg p) hlz hx

/-- Witness for the amended C4 on a strictly rising 14-bar series. -/
theorem rsiRangeAmended_witness :
    14 ≤ ([1, 2, 3, 4, 5, 6, 7, 8, 9, 10, 11, 12, 13, 14] : List ℚ).length ∧
    0 < (rsiGains [1, 2, 3, 4, 5, 6, 7, 8, 9, 10, 11, 12, 13, 14]).sum +
      (rsiLosses [1, 2, 3, 4, 5, 6, 7, 8, 9, 10, 11, 12, 13, 14]).sum ∧
    ∃ r : ℚ,
      calculateRsi [1, 2, 3, 4, 5, 6, 7, 8, 9, 10, 11, 12, 13, 14] = some r ∧
      0 ≤ r ∧ r ≤ 100 ∧
      (r = 100 →
        (∀ x ∈ rsiLosses [1, 2, 3, 4, 5, 6, 7, 8, 9, 10, 11, 12, 13, 14],
          x = 0) ∧
        0 < (rsiGains [1, 2, 3, 4, 5, 6, 7, 8, 9, 10, 11, 12, 13, 14]).sum) :=
  ⟨by simp,
    by simp [rsiGains, rsiLosses, tDeltas, lastN]; norm_num,
    rsiRangeAmended [1, 2, 3, 4, 5, 6, 7, 8, 9, 10, 11, 12, 13, 14]
      (by simp)
      (by simp [rsiGains, rsiLosses, tDeltas, lastN]; norm_num)⟩

/-- C5: the composite risk score is monotone non-decreasing separately in
volatility, in max drawdown and in VaR95, all other inputs held fixed. -/
theorem riskScoreMonotone (beta sharpe : ℚ) (fd : RiskFundamentals)
    (v v' d d' va va' : ℚ) :
    (v ≤ v' → calculateRiskScore v beta sharpe d va fd ≤
      calculateRiskScore v' beta sharpe d va fd) ∧
    (d ≤ d' → calculateRiskScore v beta sharpe d va fd ≤
      calculateRiskScore v beta sharpe d' va fd) ∧
    (va ≤ va' → calculateRiskScore v beta sharpe d va fd ≤
      calculateRiskScore v beta sharpe d va' fd) := by
  refine ⟨fun h => ?_, fun h => ?_, fun h => ?_⟩
  · have hm := normalizeVolatility_mono h
    unfold calculateRiskScore
    exact round1_mono (by linarith)
  · have hm := normalizeDrawdown_mono h
    unfold calculateRiskScore
    exact round1_mono (by linarith)
  · have hm := normalizeVar_mono h
    unfold calculateRiskScore
    exact round1_mono (by linarith)

/-- Witness for C5: a volatility increase from 0.10 to 0.50 with all other
inputs fixed does not lower the risk score. -/
theorem riskScoreMonotone_witness :
    calculateRiskScore (1/10) 1 1 (1/10) (1/100) ⟨none, none, none⟩ ≤
      calculateRiskScore (1/2) 1 1 (1/10) (1/100) ⟨none, none, none⟩ :=
  (riskScoreMonotone 1 1 ⟨none, none, none⟩ (1/10) (1/2) (1/10) (1/10)
    (1/100) (1/100)).1 (by norm_num)

end AutoTrader
